import Mathlib

/-!
Verification of the StackIt Q&A forum backend (Node/Express/Mongoose).

This file shallowly embeds the parts of the repository that the checked
claims are about:

* the vote ledger embedded in every content record
  (`questionSchema.methods.addVote / removeVote`,
   `answerSchema.methods.addVote / removeVote`,
   `commentSchema.methods.addVote / removeVote` — all three are textually
   identical, so they are embedded once as operations on `Votes`);
* the answer routes (`POST /api/answers`, `POST /api/answers/:id/accept`,
  `POST /api/answers/:id/unaccept`) from `routes/answers.js`;
* the question routes (`PUT /api/questions/:id`, `DELETE /api/questions/:id`)
  and the pagination object of `GET /api/questions` from `routes/questions.js`;
* the admin ban route (`PUT /api/users/:id/ban`) from `routes/users.js`.

Mongo ObjectIds are modelled as `Nat`, dates as `Nat` timestamps supplied
explicitly, and the document store as in-memory lists of records.  A
mongoose `save()` after mutating some paths of a fetched document is
modelled as a field-level update of the record with the same id
(`updIf`), which matches the mongoose modified-paths `$set` semantics.
Route handlers return `(httpStatus, newStore)`.
-/

/-- Mongo ObjectIds compare by string equality in the source
(`toString()` comparisons); modelled as `Nat`. -/
abbrev OId := Nat

/-- One entry of a vote array: `{ user, createdAt }` (the schema default
`Date.now` is passed in explicitly as a timestamp). -/
structure VoteEntry where
  user : OId
  createdAt : Nat
deriving Repr, DecidableEq

/-- The embedded vote ledger `votes: { upvotes: [...], downvotes: [...] }`
shared by the question, answer and comment schemas. -/
structure Votes where
  upvotes : List VoteEntry
  downvotes : List VoteEntry
deriving Repr, DecidableEq

/-- Schema default for a freshly created record: both arrays empty. -/
def emptyVotes : Votes := { upvotes := [], downvotes := [] }

/-- The virtual `voteCount`: `this.votes.upvotes.length - this.votes.downvotes.length`. -/
def voteCount (v : Votes) : Int :=
  (v.upvotes.length : Int) - (v.downvotes.length : Int)

/-- The filter predicate used by `addVote`/`removeVote`:
`vote => vote.user.toString() !== userId.toString()`. -/
def notUser (userId : OId) (e : VoteEntry) : Bool := e.user != userId

/-- Method `addVote(userId, voteType)` (identical in the question, answer and
comment schemas): filter the voter out of both arrays, then push a new
entry onto the array selected by `voteType` (no push for any other
string). -/
def addVote (v : Votes) (userId : OId) (voteType : String) (now : Nat) : Votes :=
  if voteType = "upvote" then
    { upvotes := v.upvotes.filter (notUser userId) ++ [{ user := userId, createdAt := now }],
      downvotes := v.downvotes.filter (notUser userId) }
  else if voteType = "downvote" then
    { upvotes := v.upvotes.filter (notUser userId),
      downvotes := v.downvotes.filter (notUser userId) ++ [{ user := userId, createdAt := now }] }
  else
    { upvotes := v.upvotes.filter (notUser userId),
      downvotes := v.downvotes.filter (notUser userId) }

/-- Method `removeVote(userId)`: filter the voter out of both arrays. -/
def removeVote (v : Votes) (userId : OId) : Votes :=
  { upvotes := v.upvotes.filter (notUser userId),
    downvotes := v.downvotes.filter (notUser userId) }

/-- The voter ids present in the upvotes array. -/
def upUsers (v : Votes) : List OId := v.upvotes.map VoteEntry.user

/-- The voter ids present in the downvotes array. -/
def downUsers (v : Votes) : List OId := v.downvotes.map VoteEntry.user

/-- Mutual exclusivity of the two sets: no voter id occurs in both. -/
def exclusiveVotes (v : Votes) : Prop :=
  ∀ u : OId, ¬ (u ∈ upUsers v ∧ u ∈ downUsers v)

/-- Number of entries a given voter owns in a vote array. -/
def countUser (l : List VoteEntry) (u : OId) : Nat :=
  (l.filter (fun e => e.user == u)).length

lemma addVote_up (v : Votes) (u : OId) (n : Nat) :
    addVote v u "upvote" n =
      { upvotes := v.upvotes.filter (notUser u) ++ [{ user := u, createdAt := n }],
        downvotes := v.downvotes.filter (notUser u) } := by
  simp [addVote]

lemma addVote_down (v : Votes) (u : OId) (n : Nat) :
    addVote v u "downvote" n =
      { upvotes := v.upvotes.filter (notUser u),
        downvotes := v.downvotes.filter (notUser u) ++ [{ user := u, createdAt := n }] } := by
  simp [addVote]

lemma addVote_other (v : Votes) (u : OId) {t : String} (n : Nat)
    (ht : t ≠ "upvote") (ht2 : t ≠ "downvote") :
    addVote v u t n =
      { upvotes := v.upvotes.filter (notUser u),
        downvotes := v.downvotes.filter (notUser u) } := by
  rw [addVote, if_neg ht, if_neg ht2]

lemma mem_map_user_filter (l : List VoteEntry) (u w : OId) :
    w ∈ (l.filter (notUser u)).map VoteEntry.user ↔
      w ∈ l.map VoteEntry.user ∧ w ≠ u := by
  simp only [List.mem_map, List.mem_filter, notUser, bne_iff_ne, ne_eq]
  constructor
  · rintro ⟨e, ⟨he, hne⟩, rfl⟩
    exact ⟨⟨e, he, rfl⟩, hne⟩
  · rintro ⟨⟨e, he, rfl⟩, hne⟩
    exact ⟨e, ⟨he, hne⟩, rfl⟩

lemma countUser_filter_notUser (l : List VoteEntry) (u : OId) :
    countUser (l.filter (notUser u)) u = 0 := by
  simp only [countUser, List.length_eq_zero, List.filter_eq_nil_iff]
  intro e he
  rw [List.mem_filter] at he
  have h2 := he.2
  simp only [notUser, bne_iff_ne, ne_eq] at h2
  simp [h2]

lemma countUser_append (l m : List VoteEntry) (u : OId) :
    countUser (l ++ m) u = countUser l u + countUser m u := by
  simp [countUser, List.filter_append]

lemma countUser_self_singleton (u : OId) (n : Nat) :
    countUser [{ user := u, createdAt := n }] u = 1 := by
  simp [countUser]

lemma filter_notUser_idem (l : List VoteEntry) (u : OId) :
    (l.filter (notUser u)).filter (notUser u) = l.filter (notUser u) := by
  rw [List.filter_filter]
  simp only [Bool.and_self]

lemma notUser_self (u : OId) (n : Nat) :
    notUser u { user := u, createdAt := n } = false := by
  simp [notUser]

lemma filter_notUser_append_self (l : List VoteEntry) (u : OId) (n : Nat) :
    (l ++ [({ user := u, createdAt := n } : VoteEntry)]).filter (notUser u) =
      l.filter (notUser u) := by
  simp [List.filter_append, notUser_self]

/-- Claim C2: for every content record the derived `voteCount` virtual
equals `|upvotes| - |downvotes|`; no voter id is ever in both the upvotes
and the downvotes set at once: this exclusivity holds of a freshly created
record (both arrays empty by schema default) and is preserved by every
`addVote` and every `removeVote`. -/
theorem voteLedger_invariant :
    (∀ v : Votes, voteCount v = (v.upvotes.length : Int) - (v.downvotes.length : Int)) ∧
    exclusiveVotes emptyVotes ∧
    (∀ (v : Votes) (u : OId) (t : String) (n : Nat),
      exclusiveVotes v → exclusiveVotes (addVote v u t n)) ∧
    (∀ (v : Votes) (u : OId),
      exclusiveVotes v → exclusiveVotes (removeVote v u)) := by
  refine ⟨fun v => rfl, ?_, ?_, ?_⟩
  · intro u h
    simp [upUsers, downUsers, emptyVotes] at h
  · intro v u t n hv w hw
    by_cases ht : t = "upvote"
    · subst ht
      rw [addVote_up] at hw
      simp only [upUsers, downUsers, List.map_append, List.mem_append,
        List.map_cons, List.map_nil, List.mem_singleton, List.not_mem_nil,
        or_false, mem_map_user_filter] at hw
      rcases hw with ⟨h1 | h1, h2⟩
      · exact hv w ⟨h1.1, h2.1⟩
      · exact h2.2 h1
    · by_cases ht2 : t = "downvote"
      · subst ht2
        rw [addVote_down] at hw
        simp only [upUsers, downUsers, List.map_append, List.mem_append,
          List.map_cons, List.map_nil, List.mem_singleton, List.not_mem_nil,
          or_false, mem_map_user_filter] at hw
        rcases hw with ⟨h1, h2 | h2⟩
        · exact hv w ⟨h1.1, h2.1⟩
        · exact h1.2 h2
      · rw [addVote_other v u n ht ht2] at hw
        simp only [upUsers, downUsers, mem_map_user_filter] at hw
        exact hv w ⟨hw.1.1, hw.2.1⟩
  · intro v u hv w hw
    simp only [removeVote, upUsers, downUsers, mem_map_user_filter] at hw
    exact hv w ⟨hw.1.1, hw.2.1⟩

/-- Witness for C2 at a concrete ledger. -/
theorem voteLedger_invariant_witness :
    exclusiveVotes (addVote emptyVotes 5 "upvote" 0) :=
  voteLedger_invariant.2.2.1 emptyVotes 5 "upvote" 0 voteLedger_invariant.2.1

/-- Claim C3: `addVote` first strips every entry of the voter from both
arrays and then inserts a single entry in the requested direction, so the
voter ends with exactly one entry, in that direction; repeating `addVote`
with the same direction produces the very same ledger (idempotent), and
an upvote followed by a downvote by the same voter leaves exactly one
entry for that voter, in the downvotes array, the upvote entry removed. -/
theorem addVote_replace_semantics :
    (∀ (v : Votes) (u : OId) (n : Nat),
      countUser (addVote v u "upvote" n).upvotes u = 1 ∧
      countUser (addVote v u "upvote" n).downvotes u = 0) ∧
    (∀ (v : Votes) (u : OId) (n : Nat),
      countUser (addVote v u "downvote" n).upvotes u = 0 ∧
      countUser (addVote v u "downvote" n).downvotes u = 1) ∧
    (∀ (v : Votes) (u : OId) (t : String) (n₁ n₂ : Nat),
      addVote (addVote v u t n₁) u t n₂ = addVote v u t n₂) ∧
    (∀ (v : Votes) (u : OId) (n₁ n₂ : Nat),
      countUser (addVote (addVote v u "upvote" n₁) u "downvote" n₂).upvotes u = 0 ∧
      countUser (addVote (addVote v u "upvote" n₁) u "downvote" n₂).downvotes u = 1) := by
  have hup : ∀ (v : Votes) (u : OId) (n : Nat),
      countUser (addVote v u "upvote" n).upvotes u = 1 ∧
      countUser (addVote v u "upvote" n).downvotes u = 0 := by
    intro v u n
    rw [addVote_up]
    exact ⟨by simp [countUser_append, countUser_filter_notUser, countUser_self_singleton],
      countUser_filter_notUser _ _⟩
  have hdown : ∀ (v : Votes) (u : OId) (n : Nat),
      countUser (addVote v u "downvote" n).upvotes u = 0 ∧
      countUser (addVote v u "downvote" n).downvotes u = 1 := by
    intro v u n
    rw [addVote_down]
    exact ⟨countUser_filter_notUser _ _,
      by simp [countUser_append, countUser_filter_notUser, countUser_self_singleton]⟩
  refine ⟨hup, hdown, ?_, ?_⟩
  · intro v u t n₁ n₂
    by_cases ht : t = "upvote"
    · subst ht
      rw [addVote_up, addVote_up, addVote_up]
      simp [filter_notUser_append_self, filter_notUser_idem, notUser_self]
    · by_cases ht2 : t = "downvote"
      · subst ht2
        rw [addVote_down, addVote_down, addVote_down]
        simp [filter_notUser_append_self, filter_notUser_idem, notUser_self]
      · rw [addVote_other v u n₁ ht ht2, addVote_other _ u n₂ ht ht2,
          addVote_other v u n₂ ht ht2]
        simp [filter_notUser_idem]
  · intro v u n₁ n₂
    exact hdown (addVote v u "upvote" n₁) u n₂

/-- One entry of the `editHistory` array of a question or answer. -/
structure EditEntry where
  editedBy : OId
  editedAt : Nat
  previousContent : String
  editReason : String
deriving Repr, DecidableEq

/-- A document of the `Question` model (`models/Question.js`), restricted
to the fields the embedded routes read or write. -/
structure Question where
  id : OId
  title : String
  description : String
  author : OId
  tags : List String
  votes : Votes
  views : Nat
  isAnswered : Bool
  acceptedAnswer : Option OId
  isEdited : Bool
  editHistory : List EditEntry
  isDeleted : Bool
  deletedBy : Option OId
  deletedAt : Option Nat
  deleteReason : Option String
deriving Repr, DecidableEq

/-- A document of the `Answer` model (`models/Answer.js`). -/
structure Answer where
  id : OId
  content : String
  question : OId
  author : OId
  votes : Votes
  isAccepted : Bool
  acceptedAt : Option Nat
  acceptedBy : Option OId
  isEdited : Bool
  editHistory : List EditEntry
  isDeleted : Bool
  deletedBy : Option OId
  deletedAt : Option Nat
  deleteReason : Option String
deriving Repr, DecidableEq

/-- A document of the `User` model (`models/User.js`), restricted to the
fields the embedded routes read or write. -/
structure User where
  id : OId
  username : String
  role : String
  isBanned : Bool
  banReason : String
deriving Repr, DecidableEq

/-- A document of the `Notification` model (`models/Notification.js`);
`isRead` defaults to `false` on creation. -/
structure Notification where
  recipient : OId
  sender : Option OId
  type : String
  title : String
  message : String
  relatedQuestion : Option OId
  relatedAnswer : Option OId
  isRead : Bool
deriving Repr, DecidableEq

/-- The document store: one list per collection. -/
structure DB where
  users : List User
  questions : List Question
  answers : List Answer
  notifications : List Notification
deriving Repr, DecidableEq

/-- Modelling of `doc.save()` after mutating paths of the fetched document `doc`:
apply the field update `f` to every stored record satisfying `p`
(in well-formed stores ids are distinct, so at most one). -/
def updIf {α : Type} (p : α → Prop) [DecidablePred p] (f : α → α) (l : List α) : List α :=
  l.map (fun a => if p a then f a else a)

/-- Method `answerSchema.methods.acceptAnswer(userId)`: set `isAccepted`,
`acceptedAt = new Date()`, `acceptedBy = userId`. -/
def acceptAnswer (a : Answer) (userId : OId) (now : Nat) : Answer :=
  { a with isAccepted := true, acceptedAt := some now, acceptedBy := some userId }

/-- Method `answerSchema.methods.unacceptAnswer()`: clear `isAccepted`,
`acceptedAt`, `acceptedBy`. -/
def unacceptAnswer (a : Answer) : Answer :=
  { a with isAccepted := false, acceptedAt := none, acceptedBy := none }

/-- The notification persisted by `POST /api/answers/:id/accept`. -/
def acceptNotification (question : Question) (answer : Answer) (user : User) : Notification :=
  { recipient := answer.author
    sender := some user.id
    type := "answer_accepted"
    title := "Answer accepted"
    message := "Your answer to \"" ++ question.title ++ "\" was accepted"
    relatedQuestion := some question.id
    relatedAnswer := some answer.id
    isRead := false }

/-- The notification persisted by `POST /api/answers` for the question
author. -/
def answerReceivedNotification (question : Question) (answer : Answer) (user : User) :
    Notification :=
  { recipient := question.author
    sender := some user.id
    type := "answer_received"
    title := "New answer received"
    message := user.username ++ " answered your question \"" ++ question.title ++ "\""
    relatedQuestion := some question.id
    relatedAnswer := some answer.id
    isRead := false }

/-- Route `POST /api/answers/:id/accept` (`routes/answers.js`): 404 when the
answer or its question is absent or soft-deleted, 403 unless the caller
is the question author; otherwise unaccept the previously accepted
answer (when its document is found), accept the target answer, mark the
question answered with `acceptedAnswer = answer._id`, and persist an
`answer_accepted` notification unless the caller authored the answer. -/
def acceptRoute (db : DB) (answerId : OId) (user : User) (now : Nat) : Nat × DB :=
  match db.answers.find? (fun a => a.id == answerId) with
  | none => (404, db)
  | some answer =>
    if answer.isDeleted then (404, db)
    else match db.questions.find? (fun q => q.id == answer.question) with
    | none => (404, db)
    | some question =>
      if question.isDeleted then (404, db)
      else if question.author ≠ user.id then (403, db)
      else
        let answers1 :=
          match question.acceptedAnswer with
          | some prevId =>
            match db.answers.find? (fun a => a.id == prevId) with
            | some _ => updIf (fun a => a.id = prevId) unacceptAnswer db.answers
            | none => db.answers
          | none => db.answers
        let answers2 :=
          updIf (fun a => a.id = answerId) (fun a => acceptAnswer a user.id now) answers1
        let questions2 :=
          updIf (fun x => x.id = question.id)
            (fun x => { x with isAnswered := true, acceptedAnswer := some answerId })
            db.questions
        let notifications2 :=
          if answer.author ≠ user.id then
            db.notifications ++ [acceptNotification question answer user]
          else db.notifications
        (200, { db with questions := questions2, answers := answers2,
                        notifications := notifications2 })

/-- Route `POST /api/answers/:id/unaccept` (`routes/answers.js`): 404 when the
answer or its question is absent or soft-deleted, 403 unless the caller
is the question author, 400 when the target answer is not currently
accepted; otherwise clear the acceptance fields of the answer and of the
question.  No notification is created on this route. -/
def unacceptRoute (db : DB) (answerId : OId) (user : User) : Nat × DB :=
  match db.answers.find? (fun a => a.id == answerId) with
  | none => (404, db)
  | some answer =>
    if answer.isDeleted then (404, db)
    else match db.questions.find? (fun q => q.id == answer.question) with
    | none => (404, db)
    | some question =>
      if question.isDeleted then (404, db)
      else if question.author ≠ user.id then (403, db)
      else if ¬ answer.isAccepted then (400, db)
      else
        (200, { db with
          answers := updIf (fun a => a.id = answerId) unacceptAnswer db.answers,
          questions :=
            updIf (fun x => x.id = question.id)
              (fun x => { x with isAnswered := false, acceptedAnswer := none })
              db.questions })

/-- The answer document built by `new Answer({content, question, author})`
with all schema defaults. -/
def freshAnswer (content : String) (questionId authorId newId : OId) : Answer :=
  { id := newId, content := content, question := questionId, author := authorId
    votes := emptyVotes, isAccepted := false, acceptedAt := none, acceptedBy := none
    isEdited := false, editHistory := [], isDeleted := false
    deletedBy := none, deletedAt := none, deleteReason := none }

/-- Route `POST /api/answers` (`routes/answers.js`): 400 when the body fails
validation (`content` under 20 characters), 404 when the question is
absent or soft-deleted, 400 when the caller already has a non-deleted
answer to the question; otherwise create the answer and, unless the
caller authored the question, persist an `answer_received` notification
for the question author. -/
def postAnswer (db : DB) (user : User) (content : String) (questionId : OId)
    (newId : OId) : Nat × DB :=
  if content.length < 20 then (400, db)
  else match db.questions.find? (fun q => q.id == questionId) with
  | none => (404, db)
  | some question =>
    if question.isDeleted then (404, db)
    else match db.answers.find?
        (fun a => a.question == questionId && a.author == user.id && a.isDeleted == false) with
    | some _ => (400, db)
    | none =>
      let answer : Answer := freshAnswer content questionId user.id newId
      let notifications2 :=
        if question.author ≠ user.id then
          db.notifications ++ [answerReceivedNotification question answer user]
        else db.notifications
      (201, { db with answers := db.answers ++ [answer], notifications := notifications2 })

/-- Optional body of `PUT /api/questions/:id`. -/
structure UpdateBody where
  title : Option String
  description : Option String
  tags : Option (List String)
  editReason : Option String
deriving Repr, DecidableEq

/-- Validator `body(title).optional().isLength({ min: 10, max: 300 })`. -/
def validOptTitle : Option String → Bool
  | none => true
  | some t => decide (10 ≤ t.length) && decide (t.length ≤ 300)

/-- Validator `body(description).optional().isLength({ min: 20 })`. -/
def validOptDescription : Option String → Bool
  | none => true
  | some d => decide (20 ≤ d.length)

/-- Validators `body(tags).optional().isArray({ min: 1, max: 5 })` and
`body(tags.*).optional().isLength({ min: 2, max: 20 })`. -/
def validOptTags : Option (List String) → Bool
  | none => true
  | some ts =>
    decide (1 ≤ ts.length) && decide (ts.length ≤ 5) &&
      ts.all (fun t => decide (2 ≤ t.length) && decide (t.length ≤ 20))

/-- Tag normalization `tag.toLowerCase().trim()`. -/
def normalizeTag (t : String) : String := t.toLower.trim

/-- Serialization `JSON.stringify` of title, description and tags, stored as
`previousContent` in the edit history (braces written as escapes). -/
def stringifyPrev (title description : String) (tags : List String) : String :=
  "\x7b\"title\":\"" ++ title ++ "\",\"description\":\"" ++ description ++
    "\",\"tags\":[" ++ String.intercalate "," (tags.map (fun t => "\"" ++ t ++ "\"")) ++
    "]\x7d"

/-- Route `PUT /api/questions/:id` (`routes/questions.js`): 400 on validator
failure, 404 when the question is absent or soft-deleted, 403 unless the
caller is the author or an admin, 400 when no field actually changes;
otherwise `findByIdAndUpdate` with the changed fields, `isEdited = true`
and the edit-history entry appended. -/
def putQuestion (db : DB) (questionId : OId) (user : User) (body : UpdateBody)
    (now : Nat) : Nat × DB :=
  if ¬ (validOptTitle body.title && validOptDescription body.description &&
        validOptTags body.tags) then (400, db)
  else match db.questions.find? (fun q => q.id == questionId) with
  | none => (404, db)
  | some question =>
    if question.isDeleted then (404, db)
    else if question.author ≠ user.id ∧ user.role ≠ "admin" then (403, db)
    else
      let newTitle : Option String :=
        match body.title with
        | some t => if t ≠ "" ∧ t ≠ question.title then some t else none
        | none => none
      let newDescription : Option String :=
        match body.description with
        | some d => if d ≠ "" ∧ d ≠ question.description then some d else none
        | none => none
      let newTags : Option (List String) := body.tags.map (List.map normalizeTag)
      if newTitle = none ∧ newDescription = none ∧ newTags = none then (400, db)
      else
        let entry : EditEntry :=
          { editedBy := user.id
            editedAt := now
            previousContent :=
              stringifyPrev question.title question.description question.tags
            editReason := body.editReason.getD "No reason provided" }
        let questions2 :=
          updIf (fun x => x.id = questionId)
            (fun x =>
              { x with
                title := newTitle.getD x.title
                description := newDescription.getD x.description
                tags := newTags.getD x.tags
                isEdited := true
                editHistory := question.editHistory ++ [entry] })
            db.questions
        (200, { db with questions := questions2 })

/-- Route `DELETE /api/questions/:id` (`routes/questions.js`): 404 when the
question is absent or soft-deleted, 403 unless the caller is the author
or an admin; otherwise soft-delete the question. -/
def deleteQuestion (db : DB) (questionId : OId) (user : User)
    (reason : Option String) (now : Nat) : Nat × DB :=
  match db.questions.find? (fun q => q.id == questionId) with
  | none => (404, db)
  | some question =>
    if question.isDeleted then (404, db)
    else if question.author ≠ user.id ∧ user.role ≠ "admin" then (403, db)
    else
      let questions2 :=
        updIf (fun x => x.id = questionId)
          (fun x =>
            { x with
              isDeleted := true
              deletedBy := some user.id
              deletedAt := some now
              deleteReason := some (reason.getD "No reason provided") })
          db.questions
      (200, { db with questions := questions2 })

/-- Route `PUT /api/users/:id/ban` (`routes/users.js`), behind `requireAdmin`:
400 when `reason` is missing or empty (`body(reason).notEmpty()`),
404 when the target user is absent, 403 when the target is an admin;
otherwise set `isBanned = true` and `banReason = reason`. -/
def banUser (db : DB) (targetId : OId) (reason : Option String) : Nat × DB :=
  match reason with
  | none => (400, db)
  | some r =>
    if r = "" then (400, db)
    else match db.users.find? (fun u => u.id == targetId) with
    | none => (404, db)
    | some user =>
      if user.role = "admin" then (403, db)
      else
        let users2 :=
          updIf (fun u => u.id = targetId)
            (fun u => { u with isBanned := true, banReason := r })
            db.users
        (200, { db with users := users2 })

/-- The pagination object returned by `GET /api/questions`. -/
structure Pagination where
  currentPage : Nat
  totalPages : Nat
  totalQuestions : Nat
  hasNextPage : Bool
  hasPrevPage : Bool
deriving Repr, DecidableEq

/-- Lines 87-99 of `routes/questions.js`:
`totalPages = Math.ceil(total / limit)` (written as the equivalent
integer computation for a positive `limit`), `hasNextPage = page <
totalPages`, `hasPrevPage = page > 1`. -/
def buildPagination (page limit total : Nat) : Pagination :=
  let totalPages := (total + limit - 1) / limit
  { currentPage := page
    totalPages := totalPages
    totalQuestions := total
    hasNextPage := decide (page < totalPages)
    hasPrevPage := decide (1 < page) }

lemma find?_id_eq_some {α : Type} (idf : α → OId) (l : List α) (j : OId) (a : α)
    (h : l.find? (fun x => idf x == j) = some a) : a ∈ l ∧ idf a = j := by
  refine ⟨List.mem_of_find?_eq_some h, ?_⟩
  have := List.find?_some h
  simpa using this

lemma find?_id_map {α : Type} (idf : α → OId) (l : List α) (g : α → α)
    (hg : ∀ a, idf (g a) = idf a) (j : OId) :
    (l.map g).find? (fun x => idf x == j) = (l.find? (fun x => idf x == j)).map g := by
  induction l with
  | nil => rfl
  | cons a l ih =>
    simp only [List.map_cons, List.find?_cons]
    have hcond : (idf (g a) == j) = (idf a == j) := by rw [hg]
    rw [hcond]
    cases h : (idf a == j) with
    | true => rfl
    | false => simpa using ih

lemma updIf_eq_self {α : Type} (p : α → Prop) [DecidablePred p] (f : α → α)
    (l : List α) (h : ∀ a ∈ l, ¬ p a) : updIf p f l = l := by
  unfold updIf
  induction l with
  | nil => rfl
  | cons a l ih =>
    simp only [List.map_cons]
    rw [if_neg (h a (List.mem_cons_self a l)),
      ih (fun b hb => h b (List.mem_cons_of_mem a hb))]

lemma eq_of_nodup_ids {α : Type} (idf : α → OId) {l : List α}
    (h : (l.map idf).Nodup) {a b : α} (ha : a ∈ l) (hb : b ∈ l)
    (hid : idf a = idf b) : a = b := by
  induction l with
  | nil => cases ha
  | cons x xs ih =>
    simp only [List.map_cons, List.nodup_cons] at h
    rcases List.mem_cons.mp ha with rfl | ha' <;> rcases List.mem_cons.mp hb with rfl | hb'
    · rfl
    · exact absurd (List.mem_map.mpr ⟨b, hb', hid.symm⟩) h.1
    · exact absurd (List.mem_map.mpr ⟨a, ha', hid⟩) h.1
    · exact ih h.2 ha' hb'

/-- The per-document effect on the answers collection of the
"unaccept previously accepted answer" block of the accept route. -/
def prevStep (acc : Option OId) (a : Answer) : Answer :=
  match acc with
  | none => a
  | some prevId => if a.id = prevId then unacceptAnswer a else a

/-- The per-document effect of `answer.acceptAnswer(req.user._id)`. -/
def accStep (answerId userId : OId) (now : Nat) (a : Answer) : Answer :=
  if a.id = answerId then acceptAnswer a userId now else a

/-- The per-document effect of the question update in the accept route. -/
def qAnsweredStep (questionId answerId : OId) (q : Question) : Question :=
  if q.id = questionId then { q with isAnswered := true, acceptedAnswer := some answerId }
  else q

lemma prevStep_id (acc : Option OId) (a : Answer) : (prevStep acc a).id = a.id := by
  cases acc with
  | none => rfl
  | some p =>
    by_cases h : a.id = p <;> simp [prevStep, unacceptAnswer, h]

lemma prevStep_question (acc : Option OId) (a : Answer) :
    (prevStep acc a).question = a.question := by
  cases acc with
  | none => rfl
  | some p =>
    by_cases h : a.id = p <;> simp [prevStep, unacceptAnswer, h]

lemma prevStep_isDeleted (acc : Option OId) (a : Answer) :
    (prevStep acc a).isDeleted = a.isDeleted := by
  cases acc with
  | none => rfl
  | some p =>
    by_cases h : a.id = p <;> simp [prevStep, unacceptAnswer, h]

lemma prevStep_author (acc : Option OId) (a : Answer) :
    (prevStep acc a).author = a.author := by
  cases acc with
  | none => rfl
  | some p =>
    by_cases h : a.id = p <;> simp [prevStep, unacceptAnswer, h]

lemma accStep_id (answerId userId : OId) (now : Nat) (a : Answer) :
    (accStep answerId userId now a).id = a.id := by
  by_cases h : a.id = answerId <;> simp [accStep, acceptAnswer, h]

lemma accStep_question (answerId userId : OId) (now : Nat) (a : Answer) :
    (accStep answerId userId now a).question = a.question := by
  by_cases h : a.id = answerId <;> simp [accStep, acceptAnswer, h]

lemma accStep_isDeleted (answerId userId : OId) (now : Nat) (a : Answer) :
    (accStep answerId userId now a).isDeleted = a.isDeleted := by
  by_cases h : a.id = answerId <;> simp [accStep, acceptAnswer, h]

lemma accStep_author (answerId userId : OId) (now : Nat) (a : Answer) :
    (accStep answerId userId now a).author = a.author := by
  by_cases h : a.id = answerId <;> simp [accStep, acceptAnswer, h]

lemma qAnsweredStep_id (questionId answerId : OId) (q : Question) :
    (qAnsweredStep questionId answerId q).id = q.id := by
  by_cases h : q.id = questionId <;> simp [qAnsweredStep, h]

lemma qAnsweredStep_author (questionId answerId : OId) (q : Question) :
    (qAnsweredStep questionId answerId q).author = q.author := by
  by_cases h : q.id = questionId <;> simp [qAnsweredStep, h]

lemma qAnsweredStep_isDeleted (questionId answerId : OId) (q : Question) :
    (qAnsweredStep questionId answerId q).isDeleted = q.isDeleted := by
  by_cases h : q.id = questionId <;> simp [qAnsweredStep, h]

lemma prevStep_some_eq (p : OId) (a : Answer) :
    prevStep (some p) a = if a.id = p then unacceptAnswer a else a := rfl

lemma accStep_eq (answerId userId : OId) (now : Nat) (a : Answer) :
    accStep answerId userId now a =
      if a.id = answerId then acceptAnswer a userId now else a := rfl

lemma unacceptAnswer_id (a : Answer) : (unacceptAnswer a).id = a.id := rfl

lemma unacceptAnswer_isAccepted (a : Answer) :
    (unacceptAnswer a).isAccepted = false := rfl

/-- Characterization of the accept route on a state where all its checks
pass: it returns 200, applies `prevStep` then `accStep` to every stored
answer, `qAnsweredStep` to every stored question, and appends the
notification unless the caller authored the answer. -/
lemma accept_success (db : DB) (answerId : OId) (user : User) (now : Nat)
    (A : Answer) (q : Question)
    (hA : db.answers.find? (fun a => a.id == answerId) = some A)
    (hAd : A.isDeleted = false)
    (hq : db.questions.find? (fun x => x.id == A.question) = some q)
    (hqd : q.isDeleted = false)
    (hauth : q.author = user.id) :
    acceptRoute db answerId user now =
      (200, { db with
        questions := db.questions.map (qAnsweredStep q.id answerId)
        answers := db.answers.map
          (fun a => accStep answerId user.id now (prevStep q.acceptedAnswer a))
        notifications :=
          if A.author = user.id then db.notifications
          else db.notifications ++ [acceptNotification q A user] }) := by
  have hnotif : (if A.author ≠ user.id then
        db.notifications ++ [acceptNotification q A user] else db.notifications) =
      (if A.author = user.id then db.notifications
        else db.notifications ++ [acceptNotification q A user]) := by
    by_cases h : A.author = user.id <;> simp [h]
  simp only [acceptRoute, hA, hAd, hq, hqd, hauth]
  cases hacc : q.acceptedAnswer with
  | none =>
    simp only [Bool.false_eq_true, if_false, ne_eq, not_true_eq_false, if_false,
      hnotif]
    rfl
  | some p =>
    simp only [Bool.false_eq_true, if_false, ne_eq, not_true_eq_false, if_false,
      hnotif]
    cases hprev : db.answers.find? (fun a => a.id == p) with
    | none =>
      have hmap : db.answers.map
          (fun a => accStep answerId user.id now (prevStep (some p) a)) =
          updIf (fun a => a.id = answerId) (fun a => acceptAnswer a user.id now)
            db.answers := by
        unfold updIf
        apply List.map_congr_left
        intro a ha
        have hne : ¬ (a.id = p) := by
          have := List.find?_eq_none.mp hprev a ha
          simpa using this
        simp only [prevStep, if_neg hne]
        rfl
      simp only [hmap]
      rfl
    | some B =>
      have hmap : db.answers.map
          (fun a => accStep answerId user.id now (prevStep (some p) a)) =
          updIf (fun a => a.id = answerId) (fun a => acceptAnswer a user.id now)
            (updIf (fun a => a.id = p) unacceptAnswer db.answers) := by
        unfold updIf
        rw [List.map_map]
        rfl
      simp only [hmap]
      rfl

/-- Acceptance consistency of a stored question: any accepted answer of
the question is the one its `acceptedAnswer` field references.  The
accept/unaccept protocol maintains this; it rules out stray accepted
answers the routes never produced. -/
def acceptConsistent (answers : List Answer) (q : Question) : Prop :=
  ∀ a ∈ answers, a.question = q.id → a.isAccepted = true → q.acceptedAnswer = some a.id

/-- Claim C1: accepting answer A1 of question Q and then accepting
answer A2 of Q (both requests by the author of Q, A1 and A2 distinct,
non-deleted answers of Q) succeeds twice and leaves Q answered with
`acceptedAnswer = A2`; A1 ends unaccepted with `acceptedAt`/`acceptedBy`
cleared, and A2 is the unique accepted answer of Q in the final store. -/
theorem accept_switch_unique_accepted
    (db : DB) (a1 a2 : OId) (user : User) (n₁ n₂ : Nat)
    (A1 A2 : Answer) (q : Question)
    (hA1 : db.answers.find? (fun a => a.id == a1) = some A1)
    (hA1d : A1.isDeleted = false)
    (hA2 : db.answers.find? (fun a => a.id == a2) = some A2)
    (hA2d : A2.isDeleted = false)
    (hq : db.questions.find? (fun x => x.id == A1.question) = some q)
    (hqd : q.isDeleted = false)
    (hA2q : A2.question = A1.question)
    (hauth : q.author = user.id)
    (hne : a1 ≠ a2)
    (hnodupA : (db.answers.map Answer.id).Nodup)
    (hcons : acceptConsistent db.answers q) :
    (acceptRoute db a1 user n₁).1 = 200 ∧
    (acceptRoute (acceptRoute db a1 user n₁).2 a2 user n₂).1 = 200 ∧
    (∃ q2, (acceptRoute (acceptRoute db a1 user n₁).2 a2 user n₂).2.questions.find?
        (fun x => x.id == q.id) = some q2 ∧
      q2.isAnswered = true ∧ q2.acceptedAnswer = some a2) ∧
    (∃ B1, (acceptRoute (acceptRoute db a1 user n₁).2 a2 user n₂).2.answers.find?
        (fun a => a.id == a1) = some B1 ∧
      B1.isAccepted = false ∧ B1.acceptedAt = none ∧ B1.acceptedBy = none) ∧
    (∃ B2, (acceptRoute (acceptRoute db a1 user n₁).2 a2 user n₂).2.answers.find?
        (fun a => a.id == a2) = some B2 ∧ B2.isAccepted = true) ∧
    (∀ a ∈ (acceptRoute (acceptRoute db a1 user n₁).2 a2 user n₂).2.answers,
      (a.question = q.id ∧ a.isAccepted = true) ↔ a.id = a2) := by
  obtain ⟨hA1mem, hA1id⟩ := find?_id_eq_some Answer.id db.answers a1 A1 hA1
  obtain ⟨hA2mem, hA2id⟩ := find?_id_eq_some Answer.id db.answers a2 A2 hA2
  obtain ⟨hqmem, hqid⟩ := find?_id_eq_some Question.id db.questions A1.question q hq
  have h1 := accept_success db a1 user n₁ A1 q hA1 hA1d hq hqd hauth
  have hg1_id : ∀ e : Answer,
      (accStep a1 user.id n₁ (prevStep q.acceptedAnswer e)).id = e.id := by
    intro e
    rw [accStep_id, prevStep_id]
  have hA2' : (db.answers.map
      (fun a => accStep a1 user.id n₁ (prevStep q.acceptedAnswer a))).find?
        (fun a => a.id == a2) =
      some (accStep a1 user.id n₁ (prevStep q.acceptedAnswer A2)) := by
    rw [find?_id_map Answer.id db.answers _ hg1_id a2, hA2]
    rfl
  have hA2'd : (accStep a1 user.id n₁ (prevStep q.acceptedAnswer A2)).isDeleted = false := by
    rw [accStep_isDeleted, prevStep_isDeleted]
    exact hA2d
  have hA2'q : (accStep a1 user.id n₁ (prevStep q.acceptedAnswer A2)).question =
      A1.question := by
    rw [accStep_question, prevStep_question, hA2q]
  have hq1eq : qAnsweredStep q.id a1 q =
      { q with isAnswered := true, acceptedAnswer := some a1 } := by
    simp [qAnsweredStep]
  have hq' : (db.questions.map (qAnsweredStep q.id a1)).find?
      (fun x => x.id ==
        (accStep a1 user.id n₁ (prevStep q.acceptedAnswer A2)).question) =
      some (qAnsweredStep q.id a1 q) := by
    rw [hA2'q, find?_id_map Question.id db.questions _
      (fun x => qAnsweredStep_id q.id a1 x) A1.question, hq]
    rfl
  have hq1d : (qAnsweredStep q.id a1 q).isDeleted = false := by
    rw [hq1eq]
    exact hqd
  have hq1auth : (qAnsweredStep q.id a1 q).author = user.id := by
    rw [hq1eq]
    exact hauth
  have hq1acc : (qAnsweredStep q.id a1 q).acceptedAnswer = some a1 := by
    rw [hq1eq]
  have hq1id : (qAnsweredStep q.id a1 q).id = q.id := qAnsweredStep_id q.id a1 q
  have h2 := accept_success
    { db with
      questions := db.questions.map (qAnsweredStep q.id a1)
      answers := db.answers.map
        (fun a => accStep a1 user.id n₁ (prevStep q.acceptedAnswer a))
      notifications :=
        if A1.author = user.id then db.notifications
        else db.notifications ++ [acceptNotification q A1 user] }
    a2 user n₂ (accStep a1 user.id n₁ (prevStep q.acceptedAnswer A2))
    (qAnsweredStep q.id a1 q) hA2' hA2'd hq' hq1d hq1auth
  simp only [hq1acc, hq1id] at h2
  have hg2_id : ∀ e : Answer,
      (accStep a2 user.id n₂ (prevStep (some a1) e)).id = e.id := by
    intro e
    rw [accStep_id, prevStep_id]
  have hcomp1 : ∀ e : Answer, e.id = a1 →
      accStep a2 user.id n₂ (prevStep (some a1)
        (accStep a1 user.id n₁ (prevStep q.acceptedAnswer e))) =
      unacceptAnswer (accStep a1 user.id n₁ (prevStep q.acceptedAnswer e)) := by
    intro e he1
    have hin : (accStep a1 user.id n₁ (prevStep q.acceptedAnswer e)).id = a1 := by
      rw [hg1_id]
      exact he1
    rw [prevStep_some_eq, if_pos hin, accStep_eq,
      if_neg (show ¬ (unacceptAnswer (accStep a1 user.id n₁
        (prevStep q.acceptedAnswer e))).id = a2 by
          rw [unacceptAnswer_id, hin]; exact hne)]
  have hcomp2 : ∀ e : Answer, e.id = a2 →
      accStep a2 user.id n₂ (prevStep (some a1)
        (accStep a1 user.id n₁ (prevStep q.acceptedAnswer e))) =
      acceptAnswer (accStep a1 user.id n₁ (prevStep q.acceptedAnswer e))
        user.id n₂ := by
    intro e he2
    have hin : (accStep a1 user.id n₁ (prevStep q.acceptedAnswer e)).id = a2 := by
      rw [hg1_id]
      exact he2
    rw [prevStep_some_eq,
      if_neg (show ¬ (accStep a1 user.id n₁
        (prevStep q.acceptedAnswer e)).id = a1 by rw [hin]; exact Ne.symm hne),
      accStep_eq, if_pos hin]
  have hcomp3 : ∀ e : Answer, e.id ≠ a1 → e.id ≠ a2 →
      accStep a2 user.id n₂ (prevStep (some a1)
        (accStep a1 user.id n₁ (prevStep q.acceptedAnswer e))) =
      prevStep q.acceptedAnswer e := by
    intro e he1 he2
    have hpid : (prevStep q.acceptedAnswer e).id = e.id := prevStep_id _ _
    rw [accStep_eq a1 user.id n₁,
      if_neg (show ¬ (prevStep q.acceptedAnswer e).id = a1 by rw [hpid]; exact he1),
      prevStep_some_eq,
      if_neg (show ¬ (prevStep q.acceptedAnswer e).id = a1 by rw [hpid]; exact he1),
      accStep_eq,
      if_neg (show ¬ (prevStep q.acceptedAnswer e).id = a2 by rw [hpid]; exact he2)]
  rw [h1]
  dsimp only at h2 ⊢
  rw [h2]
  dsimp only
  refine ⟨rfl, rfl, ?_, ?_, ?_, ?_⟩
  · refine ⟨qAnsweredStep q.id a2 (qAnsweredStep q.id a1 q), ?_, ?_, ?_⟩
    · rw [find?_id_map Question.id _ _ (fun x => qAnsweredStep_id q.id a2 x) q.id,
        find?_id_map Question.id _ _ (fun x => qAnsweredStep_id q.id a1 x) q.id,
        hqid, hq]
      rfl
    · rw [hq1eq]
      simp [qAnsweredStep]
    · rw [hq1eq]
      simp [qAnsweredStep]
  · refine ⟨accStep a2 user.id n₂ (prevStep (some a1)
      (accStep a1 user.id n₁ (prevStep q.acceptedAnswer A1))), ?_, ?_, ?_, ?_⟩
    · rw [find?_id_map Answer.id _ _ hg2_id a1,
        find?_id_map Answer.id _ _ hg1_id a1, hA1]
      rfl
    · rw [hcomp1 A1 hA1id]
      rfl
    · rw [hcomp1 A1 hA1id]
      rfl
    · rw [hcomp1 A1 hA1id]
      rfl
  · refine ⟨accStep a2 user.id n₂ (prevStep (some a1)
      (accStep a1 user.id n₁ (prevStep q.acceptedAnswer A2))), ?_, ?_⟩
    · rw [find?_id_map Answer.id _ _ hg2_id a2,
        find?_id_map Answer.id _ _ hg1_id a2, hA2]
      rfl
    · rw [hcomp2 A2 hA2id]
      rfl
  · intro a ha
    obtain ⟨b, hb, rfl⟩ := List.mem_map.mp ha
    obtain ⟨e, he, rfl⟩ := List.mem_map.mp hb
    have hide : (accStep a2 user.id n₂ (prevStep (some a1)
        (accStep a1 user.id n₁ (prevStep q.acceptedAnswer e)))).id = e.id := by
      rw [accStep_id, prevStep_id, accStep_id, prevStep_id]
    have hquese : (accStep a2 user.id n₂ (prevStep (some a1)
        (accStep a1 user.id n₁ (prevStep q.acceptedAnswer e)))).question =
        e.question := by
      rw [accStep_question, prevStep_question, accStep_question, prevStep_question]
    rw [hide, hquese]
    constructor
    · rintro ⟨hqe, hacce⟩
      by_contra he2
      by_cases he1 : e.id = a1
      · rw [hcomp1 e he1] at hacce
        rw [unacceptAnswer_isAccepted] at hacce
        exact Bool.false_ne_true hacce
      · rw [hcomp3 e he1 he2] at hacce
        cases hacc : q.acceptedAnswer with
        | none =>
          rw [hacc] at hacce
          simp only [prevStep] at hacce
          have hc := hcons e he hqe hacce
          rw [hacc] at hc
          exact Option.noConfusion hc
        | some p =>
          rw [hacc, prevStep_some_eq] at hacce
          by_cases hep : e.id = p
          · rw [if_pos hep, unacceptAnswer_isAccepted] at hacce
            exact Bool.false_ne_true hacce
          · rw [if_neg hep] at hacce
            have hc := hcons e he hqe hacce
            rw [hacc] at hc
            injection hc with hc'
            exact hep hc'.symm
    · intro he2
      have heA2 : e = A2 :=
        eq_of_nodup_ids Answer.id hnodupA he hA2mem (by rw [he2, hA2id])
      subst heA2
      refine ⟨by rw [hA2q]; exact hqid.symm, ?_⟩
      rw [hcomp2 e he2]
      rfl

/-- Claim C4: when the target answer of an unaccept request by the
question author is not the currently accepted answer of the question (under
acceptance consistency between the `isAccepted` flag of the answer and the
`acceptedAnswer` reference of the question), the route returns 400 and the
store — in particular every acceptance field of the question and of the
answer — is unchanged. -/
theorem unaccept_not_accepted_rejected
    (db : DB) (aid : OId) (user : User) (A : Answer) (q : Question)
    (hA : db.answers.find? (fun a => a.id == aid) = some A)
    (hAd : A.isDeleted = false)
    (hq : db.questions.find? (fun x => x.id == A.question) = some q)
    (hqd : q.isDeleted = false)
    (hauth : q.author = user.id)
    (hinv : A.isAccepted = true → q.acceptedAnswer = some A.id)
    (hne : q.acceptedAnswer ≠ some A.id) :
    unacceptRoute db aid user = (400, db) := by
  have hacc : A.isAccepted = false := by
    cases h : A.isAccepted
    · rfl
    · exact absurd (hinv h) hne
  simp only [unacceptRoute, hA, hAd, hq, hqd, hauth, hacc, Bool.false_eq_true,
    if_false, ne_eq, not_true_eq_false, not_false_eq_true, if_true]

/-- Concrete user for the C4 witness. -/
def userC4 : User :=
  { id := 10, username := "alice", role := "user", isBanned := false, banReason := "" }

/-- Concrete question for the C4 witness: nothing accepted yet. -/
def qC4 : Question :=
  { id := 1, title := "How to center a div", description := "I cannot center a div with flexbox"
    author := 10, tags := ["css"], votes := emptyVotes, views := 0
    isAnswered := false, acceptedAnswer := none, isEdited := false, editHistory := []
    isDeleted := false, deletedBy := none, deletedAt := none, deleteReason := none }

/-- Concrete non-accepted answer for the C4 witness. -/
def aC4 : Answer :=
  { id := 2, content := "Use display flex and justify content", question := 1, author := 20
    votes := emptyVotes, isAccepted := false, acceptedAt := none, acceptedBy := none
    isEdited := false, editHistory := [], isDeleted := false
    deletedBy := none, deletedAt := none, deleteReason := none }

/-- Concrete store for the C4 witness. -/
def dbC4 : DB := { users := [userC4], questions := [qC4], answers := [aC4], notifications := [] }

/-- Witness for C4. -/
theorem unaccept_not_accepted_rejected_witness :
    unacceptRoute dbC4 2 userC4 = (400, dbC4) :=
  unaccept_not_accepted_rejected dbC4 2 userC4 aC4 qC4 (by rfl) (by rfl) (by rfl)
    (by rfl) (by rfl) (by decide) (by decide)

/-- The unaccept route never writes to the notifications collection, on
any input and on any path. -/
lemma unaccept_notifications_unchanged (db : DB) (aid : OId) (user : User) :
    (unacceptRoute db aid user).2.notifications = db.notifications := by
  unfold unacceptRoute
  repeat' split
  all_goals rfl

/-- Claim C5 (amended): every successful accept of an answer A persists
exactly one notification, with the author of A as recipient and type
`answer_accepted`, unless the requester authored A (then none); a
successful unaccept persists no notification at all — the unaccept route
leaves the notifications collection unchanged on every input. -/
theorem accept_notifies_unaccept_does_not
    (db : DB) (aid : OId) (user : User) (now : Nat) (A : Answer) (q : Question)
    (hA : db.answers.find? (fun a => a.id == aid) = some A)
    (hAd : A.isDeleted = false)
    (hq : db.questions.find? (fun x => x.id == A.question) = some q)
    (hqd : q.isDeleted = false)
    (hauth : q.author = user.id) :
    (acceptRoute db aid user now).1 = 200 ∧
    ((acceptRoute db aid user now).2.notifications =
      if A.author = user.id then db.notifications
      else db.notifications ++ [acceptNotification q A user]) ∧
    (acceptNotification q A user).recipient = A.author ∧
    (acceptNotification q A user).type = "answer_accepted" ∧
    (∀ (db2 : DB) (aid2 : OId) (user2 : User),
      (unacceptRoute db2 aid2 user2).2.notifications = db2.notifications) := by
  rw [accept_success db aid user now A q hA hAd hq hqd hauth]
  exact ⟨rfl, rfl, rfl, rfl, unaccept_notifications_unchanged⟩

/-- Requester (question author) for the C5 scenario. -/
def userC5 : User :=
  { id := 10, username := "alice", role := "user", isBanned := false, banReason := "" }

/-- Question with the answer below currently accepted. -/
def qC5 : Question :=
  { id := 1, title := "How to center a div", description := "I cannot center a div with flexbox"
    author := 10, tags := ["css"], votes := emptyVotes, views := 0
    isAnswered := true, acceptedAnswer := some 2, isEdited := false, editHistory := []
    isDeleted := false, deletedBy := none, deletedAt := none, deleteReason := none }

/-- Currently accepted answer, authored by a different user (20). -/
def aC5 : Answer :=
  { id := 2, content := "Use display flex and justify content", question := 1, author := 20
    votes := emptyVotes, isAccepted := true, acceptedAt := some 0, acceptedBy := some 10
    isEdited := false, editHistory := [], isDeleted := false
    deletedBy := none, deletedAt := none, deleteReason := none }

/-- Store for the C5 counterexample. -/
def dbC5 : DB := { users := [userC5], questions := [qC5], answers := [aC5], notifications := [] }

/-- Counterexample to C5 as stated: this unaccept request succeeds (200),
the requester is not the author of the answer, and yet the final store holds
no notification — the unaccept route creates none. -/
theorem unaccept_creates_no_notification_cex :
    (unacceptRoute dbC5 2 userC5).1 = 200 ∧
    userC5.id ≠ aC5.author ∧
    (unacceptRoute dbC5 2 userC5).2.notifications = [] := by
  refine ⟨rfl, by decide, rfl⟩

/-- Witness for the amended C5 at a concrete store. -/
theorem accept_notifies_unaccept_does_not_witness :
    (acceptRoute dbC4 2 userC4 7).1 = 200 ∧
    ((acceptRoute dbC4 2 userC4 7).2.notifications =
      if aC4.author = userC4.id then dbC4.notifications
      else dbC4.notifications ++ [acceptNotification qC4 aC4 userC4]) ∧
    (acceptNotification qC4 aC4 userC4).recipient = aC4.author ∧
    (acceptNotification qC4 aC4 userC4).type = "answer_accepted" ∧
    (∀ (db2 : DB) (aid2 : OId) (user2 : User),
      (unacceptRoute db2 aid2 user2).2.notifications = db2.notifications) :=
  accept_notifies_unaccept_does_not dbC4 2 userC4 7 aC4 qC4 (by rfl) (by rfl)
    (by rfl) (by rfl) (by rfl)

/-- Question author for the C1 witness. -/
def userC1 : User :=
  { id := 10, username := "alice", role := "user", isBanned := false, banReason := "" }

/-- Question for the C1 witness. -/
def qC1 : Question :=
  { id := 1, title := "How to center a div", description := "I cannot center a div with flexbox"
    author := 10, tags := ["css"], votes := emptyVotes, views := 0
    isAnswered := false, acceptedAnswer := none, isEdited := false, editHistory := []
    isDeleted := false, deletedBy := none, deletedAt := none, deleteReason := none }

/-- First answer (id 2) for the C1 witness. -/
def a1C1 : Answer :=
  { id := 2, content := "Use display flex and justify content", question := 1, author := 20
    votes := emptyVotes, isAccepted := false, acceptedAt := none, acceptedBy := none
    isEdited := false, editHistory := [], isDeleted := false
    deletedBy := none, deletedAt := none, deleteReason := none }

/-- Second answer (id 3) for the C1 witness. -/
def a2C1 : Answer :=
  { a1C1 with id := 3, author := 21, content := "Use margin auto on a fixed width box" }

/-- Store for the C1 witness. -/
def dbC1 : DB :=
  { users := [userC1], questions := [qC1], answers := [a1C1, a2C1], notifications := [] }

/-- Witness for C1. -/
theorem accept_switch_unique_accepted_witness :
    (acceptRoute dbC1 2 userC1 5).1 = 200 ∧
    (acceptRoute (acceptRoute dbC1 2 userC1 5).2 3 userC1 6).1 = 200 ∧
    (∃ q2, (acceptRoute (acceptRoute dbC1 2 userC1 5).2 3 userC1 6).2.questions.find?
        (fun x => x.id == qC1.id) = some q2 ∧
      q2.isAnswered = true ∧ q2.acceptedAnswer = some 3) ∧
    (∃ B1, (acceptRoute (acceptRoute dbC1 2 userC1 5).2 3 userC1 6).2.answers.find?
        (fun a => a.id == 2) = some B1 ∧
      B1.isAccepted = false ∧ B1.acceptedAt = none ∧ B1.acceptedBy = none) ∧
    (∃ B2, (acceptRoute (acceptRoute dbC1 2 userC1 5).2 3 userC1 6).2.answers.find?
        (fun a => a.id == 3) = some B2 ∧ B2.isAccepted = true) ∧
    (∀ a ∈ (acceptRoute (acceptRoute dbC1 2 userC1 5).2 3 userC1 6).2.answers,
      (a.question = qC1.id ∧ a.isAccepted = true) ↔ a.id = 3) :=
  accept_switch_unique_accepted dbC1 2 3 userC1 5 6 a1C1 a2C1 qC1
    (by rfl) (by rfl) (by rfl) (by rfl) (by rfl) (by rfl) (by rfl) (by rfl)
    (by decide) (by decide) (by unfold acceptConsistent; decide)

/-- Number of non-deleted answers by `authorId` to question `questionId`
(the filter used by the duplicate-answer check of `POST /api/answers`). -/
def countUserAnswers (l : List Answer) (authorId questionId : OId) : Nat :=
  (l.filter (fun a =>
    a.question == questionId && a.author == authorId && a.isDeleted == false)).length

/-- Claim C6: posting an answer to an existing, non-deleted question
fails with 400 and leaves the store (hence the answer count of the caller for
that question) unchanged when the caller already has a non-deleted
answer there; with valid input and no such answer it returns 201 and
appends exactly the new answer document. -/
theorem post_answer_duplicate_conflict
    (db : DB) (user : User) (content : String) (qid newId : OId)
    (q : Question) (A : Answer)
    (hq : db.questions.find? (fun x => x.id == qid) = some q)
    (hqd : q.isDeleted = false) :
    (db.answers.find? (fun a => a.question == qid && a.author == user.id &&
        a.isDeleted == false) = some A →
      postAnswer db user content qid newId = (400, db) ∧
      countUserAnswers (postAnswer db user content qid newId).2.answers user.id qid =
        countUserAnswers db.answers user.id qid) ∧
    (20 ≤ content.length →
      db.answers.find? (fun a => a.question == qid && a.author == user.id &&
        a.isDeleted == false) = none →
      (postAnswer db user content qid newId).1 = 201 ∧
      (postAnswer db user content qid newId).2.answers =
        db.answers ++ [freshAnswer content qid user.id newId]) := by
  constructor
  · intro hdup
    have h400 : postAnswer db user content qid newId = (400, db) := by
      by_cases hc : content.length < 20
      · simp only [postAnswer, if_pos hc]
      · simp only [postAnswer, if_neg hc, hq, hqd, Bool.false_eq_true, if_false, hdup]
    exact ⟨h400, by rw [h400]⟩
  · intro hc hnone
    have hc' : ¬ content.length < 20 := Nat.not_lt.mpr hc
    simp only [postAnswer, if_neg hc', hq, hqd, Bool.false_eq_true, if_false, hnone]
    exact ⟨trivial, trivial⟩

/-- The duplicate-answer author for the C6 witness (author of `a1C1`). -/
def userC6 : User :=
  { id := 20, username := "bob", role := "user", isBanned := false, banReason := "" }

/-- Witness for C6: user 20 already answered question 1 in `dbC1`, so a
second post is refused with the store unchanged. -/
theorem post_answer_duplicate_conflict_witness :
    postAnswer dbC1 userC6 "Another answer that is long enough to pass" 1 9 =
      (400, dbC1) :=
  ((post_answer_duplicate_conflict dbC1 userC6
      "Another answer that is long enough to pass" 1 9 qC1 a1C1
      (by rfl) (by rfl)).1 (by rfl)).1

/-- Claim C10: if every answer by the caller to the question is
soft-deleted, the duplicate-answer check (which filters on
`isDeleted: false`) does not fire, and a valid post succeeds with 201,
appending the new answer. -/
theorem deleted_answer_allows_reanswer
    (db : DB) (user : User) (content : String) (qid newId : OId) (q : Question)
    (hq : db.questions.find? (fun x => x.id == qid) = some q)
    (hqd : q.isDeleted = false)
    (hall : ∀ a ∈ db.answers, a.question = qid → a.author = user.id →
      a.isDeleted = true)
    (hc : 20 ≤ content.length) :
    (postAnswer db user content qid newId).1 = 201 ∧
    (postAnswer db user content qid newId).2.answers =
      db.answers ++ [freshAnswer content qid user.id newId] := by
  have hnone : db.answers.find? (fun a => a.question == qid &&
      a.author == user.id && a.isDeleted == false) = none := by
    rw [List.find?_eq_none]
    intro a ha hcontra
    simp only [Bool.and_eq_true, beq_iff_eq] at hcontra
    obtain ⟨⟨h1, h2⟩, h3⟩ := hcontra
    rw [hall a ha h1 h2] at h3
    exact Bool.noConfusion h3
  have hc' : ¬ content.length < 20 := Nat.not_lt.mpr hc
  simp only [postAnswer, if_neg hc', hq, hqd, Bool.false_eq_true, if_false, hnone]
  exact ⟨trivial, trivial⟩

/-- Previous answer of user 20 to question 1, soft-deleted. -/
def aC10 : Answer :=
  { a1C1 with isDeleted := true, deletedBy := some 20, deletedAt := some 4
              deleteReason := some "posted by mistake" }

/-- Store for the C10 witness. -/
def dbC10 : DB :=
  { users := [userC1, userC6], questions := [qC1], answers := [aC10], notifications := [] }

/-- Witness for C10. -/
theorem deleted_answer_allows_reanswer_witness :
    (postAnswer dbC10 userC6 "A better answer that is long enough" 1 9).1 = 201 ∧
    (postAnswer dbC10 userC6 "A better answer that is long enough" 1 9).2.answers =
      dbC10.answers ++ [freshAnswer "A better answer that is long enough" 1 userC6.id 9] :=
  deleted_answer_allows_reanswer dbC10 userC6
    "A better answer that is long enough" 1 9 qC1 (by rfl) (by rfl)
    (by decide) (by decide)

/-- Claim C7: a caller who is neither the question author nor an admin
gets 403 from both `PUT /api/questions/:id` (with a body that passes
validation) and `DELETE /api/questions/:id`, and the store — hence every
field of the question — is unchanged. -/
theorem non_owner_update_delete_forbidden
    (db : DB) (qid : OId) (user : User) (body : UpdateBody)
    (reason : Option String) (now : Nat) (q : Question)
    (hq : db.questions.find? (fun x => x.id == qid) = some q)
    (hqd : q.isDeleted = false)
    (hvalid : (validOptTitle body.title && validOptDescription body.description &&
      validOptTags body.tags) = true)
    (hne : q.author ≠ user.id)
    (hrole : user.role ≠ "admin") :
    putQuestion db qid user body now = (403, db) ∧
    deleteQuestion db qid user reason now = (403, db) := by
  constructor
  · simp only [putQuestion, hvalid, eq_self_iff_true, not_true, if_false, hq, hqd,
      Bool.false_eq_true]
    rw [if_pos ⟨hne, hrole⟩]
  · simp only [deleteQuestion, hq, hqd, Bool.false_eq_true, if_false]
    rw [if_pos ⟨hne, hrole⟩]

/-- Unrelated authenticated caller for the C7 witness. -/
def userC7 : User :=
  { id := 99, username := "carol", role := "user", isBanned := false, banReason := "" }

/-- Empty (hence trivially valid) update body for the C7 witness. -/
def bodyC7 : UpdateBody :=
  { title := none, description := none, tags := none, editReason := none }

/-- Witness for C7. -/
theorem non_owner_update_delete_forbidden_witness :
    putQuestion dbC1 1 userC7 bodyC7 3 = (403, dbC1) ∧
    deleteQuestion dbC1 1 userC7 none 3 = (403, dbC1) :=
  non_owner_update_delete_forbidden dbC1 1 userC7 bodyC7 none 3 qC1
    (by rfl) (by rfl) (by rfl) (by decide) (by decide)

/-- Claim C8: `PUT /api/users/:id/ban` under an admin caller: 400 when
the reason is missing or empty; 404 when the target does not exist; 403
(store unchanged) when the target is an admin; otherwise 200 with the
`isBanned` flag of the target set and `banReason` set to the given reason. -/
theorem ban_user_rules
    (db : DB) (tid : OId) (r : String) (u : User) :
    banUser db tid none = (400, db) ∧
    banUser db tid (some "") = (400, db) ∧
    (r ≠ "" → db.users.find? (fun x => x.id == tid) = none →
      banUser db tid (some r) = (404, db)) ∧
    (r ≠ "" → db.users.find? (fun x => x.id == tid) = some u → u.role = "admin" →
      banUser db tid (some r) = (403, db)) ∧
    (r ≠ "" → db.users.find? (fun x => x.id == tid) = some u → u.role ≠ "admin" →
      banUser db tid (some r) =
        (200, { db with
                users := updIf (fun x => x.id = tid)
                           (fun x => { x with isBanned := true, banReason := r })
                           db.users }) ∧
      (banUser db tid (some r)).2.users.find? (fun x => x.id == tid) =
        some { u with isBanned := true, banReason := r }) := by
  refine ⟨rfl, by simp [banUser], ?_, ?_, ?_⟩
  · intro hr hnone
    simp only [banUser, if_neg hr, hnone]
  · intro hr hsome hadmin
    simp only [banUser, if_neg hr, hsome, if_pos hadmin]
  · intro hr hsome hadmin
    have h200 : banUser db tid (some r) =
        (200, { db with
                users := updIf (fun x => x.id = tid)
                           (fun x => { x with isBanned := true, banReason := r })
                           db.users }) := by
      simp only [banUser, if_neg hr, hsome, if_neg hadmin]
    refine ⟨h200, ?_⟩
    rw [h200]
    obtain ⟨hmem, huid⟩ := find?_id_eq_some User.id db.users tid u hsome
    have hstep_id : ∀ x : User,
        (if x.id = tid then ({ x with isBanned := true, banReason := r } : User)
          else x).id = x.id := by
      intro x
      by_cases h : x.id = tid <;> simp [h]
    show (updIf (fun x => x.id = tid)
        (fun x => { x with isBanned := true, banReason := r }) db.users).find?
        (fun x => x.id == tid) = _
    unfold updIf
    rw [find?_id_map User.id db.users _ hstep_id tid, hsome]
    simp [huid]

/-- Non-admin ban target for the C8 witness. -/
def userC8 : User :=
  { id := 30, username := "dave", role := "user", isBanned := false, banReason := "" }

/-- Store for the C8 witness. -/
def dbC8 : DB := { users := [userC8], questions := [], answers := [], notifications := [] }

/-- Witness for C8: banning an existing non-admin user succeeds and sets
the ban fields. -/
theorem ban_user_rules_witness :
    banUser dbC8 30 (some "spamming the forum") =
      (200, { dbC8 with
              users := updIf (fun x => x.id = 30)
                         (fun x => { x with isBanned := true
                                            banReason := "spamming the forum" })
                         dbC8.users }) ∧
    (banUser dbC8 30 (some "spamming the forum")).2.users.find?
        (fun x => x.id == 30) =
      some { userC8 with isBanned := true, banReason := "spamming the forum" } :=
  (ban_user_rules dbC8 30 "spamming the forum" userC8).2.2.2.2
    (by decide) (by rfl) (by decide)

lemma ceil_div_nat (total limit : Nat) (hl : 0 < limit) :
    (((total + limit - 1) / limit : Nat) : Int) = ⌈(total : ℚ) / (limit : ℚ)⌉ := by
  have h1 := Nat.div_add_mod (total + limit - 1) limit
  have h2 := Nat.mod_lt (total + limit - 1) hl
  have hub : total ≤ limit * ((total + limit - 1) / limit) := by omega
  have hlb : limit * ((total + limit - 1) / limit) < total + limit := by omega
  have hlq : (0 : ℚ) < (limit : ℚ) := by exact_mod_cast hl
  symm
  rw [Int.ceil_eq_iff]
  constructor
  · rw [lt_div_iff₀ hlq, Int.cast_natCast]
    have hcast : (limit : ℚ) * (((total + limit - 1) / limit : Nat) : ℚ) <
        (total : ℚ) + (limit : ℚ) := by exact_mod_cast hlb
    nlinarith [hcast]
  · rw [div_le_iff₀ hlq, Int.cast_natCast]
    have hcast : (total : ℚ) ≤ (limit : ℚ) * (((total + limit - 1) / limit : Nat) : ℚ) := by
      exact_mod_cast hub
    nlinarith [hcast]

/-- Claim C9: the pagination object of `GET /api/questions` satisfies
`currentPage = page`, `totalQuestions = total`,
`totalPages = ceil(total / limit)`, `hasNextPage ↔ page < ceil(total /
limit)` and `hasPrevPage ↔ page > 1`, for any positive `limit`. -/
theorem questions_pagination_correct (page limit total : Nat) (hl : 0 < limit) :
    (buildPagination page limit total).currentPage = page ∧
    (buildPagination page limit total).totalQuestions = total ∧
    (((buildPagination page limit total).totalPages : Int) =
      ⌈(total : ℚ) / (limit : ℚ)⌉) ∧
    ((buildPagination page limit total).hasNextPage = true ↔
      ((page : Int) < ⌈(total : ℚ) / (limit : ℚ)⌉)) ∧
    ((buildPagination page limit total).hasPrevPage = true ↔ 1 < page) := by
  refine ⟨rfl, rfl, ceil_div_nat total limit hl, ?_, ?_⟩
  · show decide (page < (total + limit - 1) / limit) = true ↔ _
    rw [decide_eq_true_iff, ← ceil_div_nat total limit hl]
    exact_mod_cast Iff.rfl
  · show decide (1 < page) = true ↔ _
    rw [decide_eq_true_iff]

/-- Witness for C9 at `page = 2`, `limit = 10`, `total = 25`. -/
theorem questions_pagination_correct_witness :
    (buildPagination 2 10 25).currentPage = 2 ∧
    (buildPagination 2 10 25).totalQuestions = 25 ∧
    (((buildPagination 2 10 25).totalPages : Int) = ⌈(25 : ℚ) / (10 : ℚ)⌉) ∧
    ((buildPagination 2 10 25).hasNextPage = true ↔
      ((2 : Int) < ⌈(25 : ℚ) / (10 : ℚ)⌉)) ∧
    ((buildPagination 2 10 25).hasPrevPage = true ↔ 1 < 2) :=
  questions_pagination_correct 2 10 25 (by decide)
